import Mathlib

/-!
Shallow embedding of the library-management web application
(`src/init.py` schema, `src/app.py` request handlers).

Tables become lists of records; each SQL statement of a handler becomes a
pure function on the database state.  `ORDER BY` clauses are omitted where
every property of interest is about which rows appear (membership), not
their order; the dashboard's `ORDER BY created_at DESC LIMIT 1` is kept,
as a maximum-selection fold, because there the ordering selects the row.
Integer soft-delete flags (0/1) are embedded as `Bool` (`true` = 1).
-/

namespace Library

/-- Row of `authors` (init.py: id, name UNIQUE NOT NULL, is_deleted DEFAULT 0). -/
structure Author where
  id : Nat
  name : String
  is_deleted : Bool
deriving DecidableEq

/-- Row of `books` (init.py: id, title, author_id NOT NULL, format, status,
published_year, genre, total_pages, current_page DEFAULT 0, deleted DEFAULT 0). -/
structure Book where
  id : Nat
  title : String
  author_id : Nat
  format : String
  status : String
  published_year : Option Int
  genre : Option String
  total_pages : Option Int
  current_page : Int
  deleted : Bool
deriving DecidableEq

/-- Row of `quotes` (init.py: id, book_id nullable, content NOT NULL,
page_number nullable, created_at, is_deleted DEFAULT 0). -/
structure Quote where
  id : Nat
  book_id : Option Nat
  content : String
  page_number : Option Int
  created_at : Nat
  is_deleted : Bool
deriving DecidableEq

/-- The database: the three tables the handlers read and write. -/
structure DB where
  authors : List Author
  books : List Book
  quotes : List Quote
deriving DecidableEq

/-- Responses a handler can produce: a redirect, the explicit 400 error of the
page-number validation, an uncaught Python exception (`fault`), or a rendered
template page. -/
inductive Resp where
  | redirect (target : String)
  | error400 (msg : String)
  | fault (msg : String)
  | page
deriving DecidableEq

/-- ASCII lower-casing of one character, as SQLite `LIKE` applies to ASCII. -/
def lowerChar (c : Char) : Char :=
  if 65 ≤ c.toNat && c.toNat ≤ 90 then Char.ofNat (c.toNat + 32) else c

/-- Does `pat` match at the head of `s`, ASCII-case-insensitively? -/
def leadMatch : List Char → List Char → Bool
  | [], _ => true
  | _ :: _, [] => false
  | p :: ps, c :: cs => (lowerChar p == lowerChar c) && leadMatch ps cs

/-- Does `pat` occur somewhere in `s`, ASCII-case-insensitively? -/
def subMatch (pat : List Char) : List Char → Bool
  | [] => pat.isEmpty
  | c :: cs => leadMatch pat (c :: cs) || subMatch pat cs

/-- SQL `s LIKE '%pat%'` as used by the search queries (SQLite `LIKE` is
case-insensitive on ASCII). -/
def likeMatch (s pat : String) : Bool := subMatch pat.data s.data

/-- Python `str.strip()` whitespace test (ASCII whitespace). -/
def isPySpace (c : Char) : Bool :=
  c == ' ' || c == '\t' || c == '\n' || c == '\r' || c == '\x0b' || c == '\x0c'

/-- Drop leading whitespace characters. -/
def dropLeadSpace : List Char → List Char
  | [] => []
  | c :: cs => if isPySpace c then dropLeadSpace cs else c :: cs

/-- Python `str.strip()`: remove leading and trailing whitespace. -/
def pyStrip (s : String) : String :=
  String.mk ((dropLeadSpace (dropLeadSpace s.data).reverse).reverse)

/-- AUTOINCREMENT id for an `authors` insert. -/
def nextAuthorId (db : DB) : Nat := db.authors.foldl (fun m a => max m a.id) 0 + 1

/-- AUTOINCREMENT id for a `books` insert. -/
def nextBookId (db : DB) : Nat := db.books.foldl (fun m b => max m b.id) 0 + 1

/-- AUTOINCREMENT id for a `quotes` insert. -/
def nextQuoteId (db : DB) : Nat := db.quotes.foldl (fun m q => max m q.id) 0 + 1

/-- `SELECT id FROM authors WHERE name = ?` followed by `fetchone()`
(app.py, inside `add_book` / `edit_book`; not filtered by `is_deleted`). -/
def lookupAuthorByName (db : DB) (name : String) : Option Author :=
  db.authors.find? fun a => a.name == name

/-- The get-or-create author block shared by `add_book` and `edit_book`:
look up by exact name among all authors; insert a fresh row when absent. -/
def getOrCreateAuthor (db : DB) (author_name : String) : DB × Nat :=
  match lookupAuthorByName db author_name with
  | some a => (db, a.id)
  | none =>
    let aid := nextAuthorId db
    ({ db with authors := db.authors ++ [{ id := aid, name := author_name, is_deleted := false }] },
     aid)

/-- POST branch of `add_book` (app.py): get-or-create the author, then
`INSERT INTO books (title, author_id, format, status, total_pages, current_page)`.
`published_year`/`genre` keep their NULL defaults, `deleted` its 0 default. -/
def add_book (db : DB) (title author_name format_ status : String)
    (total_pages : Option Int) (current_page : Int) : DB × Resp :=
  let r := getOrCreateAuthor db author_name
  ({ r.1 with books := r.1.books ++
      [{ id := nextBookId r.1, title := title, author_id := r.2, format := format_,
         status := status, published_year := none, genre := none,
         total_pages := total_pages, current_page := current_page, deleted := false }] },
   Resp.redirect "books")

/-- POST branch of `edit_book` (app.py): get-or-create the author, then
`UPDATE books SET title, author_id, format, status, total_pages, current_page
WHERE id = ?` (the `deleted` flag is not touched). -/
def edit_book (db : DB) (book_id : Nat) (title author_name format_ status : String)
    (total_pages : Option Int) (current_page : Int) : DB × Resp :=
  let r := getOrCreateAuthor db author_name
  ({ r.1 with books := r.1.books.map fun b =>
      if b.id == book_id then
        { b with title := title, author_id := r.2, format := format_,
                 status := status, total_pages := total_pages, current_page := current_page }
      else b },
   Resp.redirect "books")

/-- `delete_book` (app.py): `UPDATE books SET deleted = 1 WHERE id = ?`, then
`UPDATE quotes SET is_deleted = 1 WHERE book_id = ?`. -/
def delete_book (db : DB) (book_id : Nat) : DB × Resp :=
  ({ db with
      books := db.books.map fun b =>
        if b.id == book_id then { b with deleted := true } else b,
      quotes := db.quotes.map fun q =>
        if q.book_id == some book_id then { q with is_deleted := true } else q },
   Resp.redirect "books")

/-- The 400 message of `add_quote` / `edit_quote`. -/
def pageErrMsg (page_number total_pages : Int) : String :=
  s!"Error: Page number {page_number} exceeds total pages ({total_pages}) of the book."

/-- POST branch of `add_quote` (app.py): fetch `total_pages` of the selected
book (`fetchone()["total_pages"]` — a missing row is an uncaught `TypeError`),
then `if page_number is not None and page_number > total_pages` return the 400
error; a present `page_number` compared against a NULL `total_pages` is Python
`int > None`, an uncaught `TypeError`; otherwise insert and redirect. -/
def add_quote (db : DB) (book_id : Nat) (content : String) (page_number : Option Int)
    (now : Nat) : DB × Resp :=
  match db.books.find? (fun b => b.id == book_id) with
  | none => (db, Resp.fault "TypeError: NoneType is not subscriptable")
  | some b =>
    let inserted : DB := { db with quotes := db.quotes ++
        [{ id := nextQuoteId db, book_id := some book_id, content := content,
           page_number := page_number, created_at := now, is_deleted := false }] }
    match page_number, b.total_pages with
    | some pn, some tp =>
        if pn > tp then (db, Resp.error400 (pageErrMsg pn tp))
        else (inserted, Resp.redirect "quotes")
    | some _, none => (db, Resp.fault "TypeError: unsupported comparison of int and NoneType")
    | none, _ => (inserted, Resp.redirect "quotes")

/-- POST branch of `edit_quote` (app.py): same validation as `add_quote`, then
`UPDATE quotes SET book_id = ?, content = ?, page_number = ? WHERE id = ?`. -/
def edit_quote (db : DB) (quote_id book_id : Nat) (content : String)
    (page_number : Option Int) : DB × Resp :=
  match db.books.find? (fun b => b.id == book_id) with
  | none => (db, Resp.fault "TypeError: NoneType is not subscriptable")
  | some b =>
    let updated : DB := { db with quotes := db.quotes.map fun q =>
        if q.id == quote_id then
          { q with book_id := some book_id, content := content, page_number := page_number }
        else q }
    match page_number, b.total_pages with
    | some pn, some tp =>
        if pn > tp then (db, Resp.error400 (pageErrMsg pn tp))
        else (updated, Resp.redirect "quotes")
    | some _, none => (db, Resp.fault "TypeError: unsupported comparison of int and NoneType")
    | none, _ => (updated, Resp.redirect "quotes")

/-- `delete_quote` (app.py): `UPDATE quotes SET is_deleted = 1 WHERE id = ?`. -/
def delete_quote (db : DB) (quote_id : Nat) : DB × Resp :=
  ({ db with quotes := db.quotes.map fun q =>
      if q.id == quote_id then { q with is_deleted := true } else q },
   Resp.redirect "quotes")

/-- POST branch of `add_author` (app.py): strip the name; an empty name
redirects back to the form without writing; `INSERT INTO authors (name)`
hitting the UNIQUE(name) constraint raises `sqlite3.IntegrityError`, which is
caught and ignored; either way redirect to the authors list. -/
def add_author (db : DB) (name : String) : DB × Resp :=
  let n := pyStrip name
  if n == "" then (db, Resp.redirect "add_author")
  else if db.authors.any (fun a => a.name == n) then
    (db, Resp.redirect "authors")
  else
    ({ db with authors := db.authors ++
        [{ id := nextAuthorId db, name := n, is_deleted := false }] },
     Resp.redirect "authors")

/-- POST branch of `edit_author` (app.py): the author must exist non-deleted;
an empty stripped name redirects back; `UPDATE authors SET name = ? WHERE id = ?`
with a UNIQUE violation (another row already has the name) is caught and
ignored. -/
def edit_author (db : DB) (author_id : Nat) (name : String) : DB × Resp :=
  match db.authors.find? (fun a => a.id == author_id && a.is_deleted == false) with
  | none => (db, Resp.redirect "authors")
  | some _ =>
    let n := pyStrip name
    if n == "" then (db, Resp.redirect "edit_author")
    else if db.authors.any (fun a => a.name == n && a.id != author_id) then
      (db, Resp.redirect "authors")
    else
      ({ db with authors := db.authors.map fun a =>
          if a.id == author_id then { a with name := n } else a },
       Resp.redirect "authors")

/-- `delete_author` (app.py): three sequential UPDATEs — authors
(`is_deleted = 1 WHERE id = ?`), books (`deleted = 1 WHERE author_id = ?`),
quotes (`is_deleted = 1 WHERE book_id IN (SELECT id FROM books WHERE
author_id = ?)`).  The books UPDATE changes neither `id` nor `author_id`, so
the subquery over the already-updated books table equals the same subquery
over the pre-state, which is used here.  A NULL `book_id` matches no `IN`. -/
def delete_author (db : DB) (author_id : Nat) : DB × Resp :=
  let authorBookIds : List Nat :=
    (db.books.filter fun b => b.author_id == author_id).map Book.id
  ({ db with
      authors := db.authors.map fun a =>
        if a.id == author_id then { a with is_deleted := true } else a,
      books := db.books.map fun b =>
        if b.author_id == author_id then { b with deleted := true } else b,
      quotes := db.quotes.map fun q =>
        if (match q.book_id with
            | some bid => authorBookIds.contains bid
            | none => false) then { q with is_deleted := true } else q },
   Resp.redirect "authors")

/-- The `FROM quotes JOIN books ON quotes.book_id = books.id` inner join. -/
def innerJoinQuotesBooks (db : DB) : List (Quote × Book) :=
  db.quotes.flatMap fun q =>
    (db.books.filter fun b => q.book_id == some b.id).map fun b => (q, b)

/-- GET `/quotes` (app.py `quotes`): with a non-empty search term the query is
`WHERE quotes.content LIKE ? OR books.title LIKE ? AND books.deleted = 0`,
which under SQL operator precedence (AND binds tighter than OR) is
`content LIKE ? OR (title LIKE ? AND deleted = 0)` and has no
`quotes.is_deleted` filter at all; without a search term it is
`WHERE books.deleted = 0 AND quotes.is_deleted = 0`.
(`ORDER BY quotes.id DESC` omitted: properties below are about membership.) -/
def quotes (db : DB) (search : String) : List (Quote × Book) :=
  if search == "" then
    (innerJoinQuotesBooks db).filter fun qb =>
      qb.2.deleted == false && qb.1.is_deleted == false
  else
    (innerJoinQuotesBooks db).filter fun qb =>
      likeMatch qb.1.content search ||
        (likeMatch qb.2.title search && qb.2.deleted == false)

/-- The `FROM books JOIN authors ON books.author_id = authors.id` inner join. -/
def innerJoinBooksAuthors (db : DB) : List (Book × Author) :=
  db.books.flatMap fun b =>
    (db.authors.filter fun a => b.author_id == a.id).map fun a => (b, a)

/-- GET `/books` (app.py `books`): `WHERE books.deleted = 0` and, when
searching, `AND (books.title LIKE ? OR authors.name LIKE ?)`.
(`ORDER BY books.id DESC` omitted: properties below are about membership.) -/
def books (db : DB) (search : String) : List (Book × Author) :=
  if search == "" then
    (innerJoinBooksAuthors db).filter fun ba => ba.1.deleted == false
  else
    (innerJoinBooksAuthors db).filter fun ba =>
      ba.1.deleted == false &&
        (likeMatch ba.1.title search || likeMatch ba.2.name search)

/-- The `FROM quotes LEFT JOIN books ON quotes.book_id = books.id` left join:
a quote with no matching book is kept, paired with NULL. -/
def leftJoinQuotesBooks (db : DB) : List (Quote × Option Book) :=
  db.quotes.flatMap fun q =>
    let hits := db.books.filter fun b => q.book_id == some b.id
    if hits.isEmpty then [(q, none)] else hits.map fun b => (q, some b)

/-- `ORDER BY created_at DESC LIMIT 1`: a row of maximal `created_at`
(the first such row, matching a stable descending sort). -/
def mostRecent (rows : List (Quote × Option Book)) : Option (Quote × Option Book) :=
  rows.foldl
    (fun acc r =>
      match acc with
      | none => some r
      | some best => if best.1.created_at < r.1.created_at then some r else some best)
    none

/-- What GET `/` (app.py `dashboard`) passes to its template. -/
structure Dashboard where
  book_count : Nat
  quote_count : Nat
  author_count : Nat
  recent_books : List (Book × Author)
  recent_quote : Option (String × Option String)
deriving DecidableEq

/-- GET `/` (app.py `dashboard`): three `COUNT(*)` queries over non-deleted
rows, the five most recent non-deleted books joined with authors, and the most
recent non-deleted quote via LEFT JOIN (so a quote with NULL `book_id` is
eligible, paired with a NULL title). -/
def dashboard (db : DB) : Dashboard :=
  { book_count := (db.books.filter fun b => b.deleted == false).length
    quote_count := (db.quotes.filter fun q => q.is_deleted == false).length
    author_count := (db.authors.filter fun a => a.is_deleted == false).length
    recent_books :=
      ((innerJoinBooksAuthors db).filter fun ba => ba.1.deleted == false).take 5
    recent_quote :=
      (mostRecent ((leftJoinQuotesBooks db).filter fun r => r.1.is_deleted == false)).map
        fun r => (r.1.content, r.2.map Book.title) }

/-- An incoming request as the auth gate sees it: the matched endpoint (Flask
`request.endpoint`, `none` when no route matched) and the request path. -/
structure Request where
  endpoint : Option String
  path : String
deriving DecidableEq

/-- Python `endpoint.split(".")[-1]`: the part after the last dot. -/
def lastDotComponent (acc : List Char) : List Char → List Char
  | [] => acc
  | c :: cs => if c == '.' then lastDotComponent [] cs else lastDotComponent (acc ++ [c]) cs

/-- The endpoint name the gate compares against its exempt tuple. -/
def endpointLastComponent (e : String) : String := String.mk (lastDotComponent [] e.data)

/-- The gate's exempt tuple `("login", "logout", "static")`. -/
def exemptEndpoints : List String := ["login", "logout", "static"]

/-- The exemption test of `require_login` (app.py): Python `if request.endpoint:`
treats both `None` and the empty string as falsy, so only a truthy endpoint
whose last dot-component is in the exempt tuple escapes the session check. -/
def exemptRequest (endpoint : Option String) : Bool :=
  match endpoint with
  | some e => e != "" && exemptEndpoints.contains (endpointLastComponent e)
  | none => false

/-- `url_for("login", next=request.path)`. -/
def loginRedirect (path : String) : Resp := Resp.redirect ("/login?next=" ++ path)

/-- `require_login` (app.py, `@app.before_request`): `some` response means the
gate short-circuits the request; `none` means it falls through. -/
def require_login (req : Request) (session_user_id : Option Nat) : Option Resp :=
  if exemptRequest req.endpoint then none
  else if session_user_id.isNone then some (loginRedirect req.path)
  else none

/-- Flask dispatch around the gate: a non-`none` `before_request` result is the
response and the endpoint's handler never runs. -/
def handleRequest (handler : Request → Resp) (req : Request)
    (session_user_id : Option Nat) : Resp :=
  match require_login req session_user_id with
  | some r => r
  | none => handler req

/-- The cascade invariant of the spec: every non-deleted book references some
author row whose `is_deleted` flag is 0. -/
def bookAuthorInv (db : DB) : Bool :=
  db.books.all fun b =>
    b.deleted || db.authors.any fun a => a.id == b.author_id && a.is_deleted == false

/-- The freshly bootstrapped database: empty tables. -/
def emptyDB : DB := ⟨[], [], []⟩

/-- Database states reachable from the empty database through the
application's write operations (add/edit/delete of books, authors, quotes). -/
inductive Reachable : DB → Prop where
  | init : Reachable emptyDB
  | addBook (db : DB) (title author_name format_ status : String)
      (tp : Option Int) (cp : Int) : Reachable db →
      Reachable (add_book db title author_name format_ status tp cp).1
  | editBook (db : DB) (bid : Nat) (title author_name format_ status : String)
      (tp : Option Int) (cp : Int) : Reachable db →
      Reachable (edit_book db bid title author_name format_ status tp cp).1
  | deleteBook (db : DB) (bid : Nat) : Reachable db →
      Reachable (delete_book db bid).1
  | addAuthor (db : DB) (name : String) : Reachable db →
      Reachable (add_author db name).1
  | editAuthor (db : DB) (aid : Nat) (name : String) : Reachable db →
      Reachable (edit_author db aid name).1
  | deleteAuthor (db : DB) (aid : Nat) : Reachable db →
      Reachable (delete_author db aid).1
  | addQuote (db : DB) (bid : Nat) (content : String) (pn : Option Int) (now : Nat) :
      Reachable db → Reachable (add_quote db bid content pn now).1
  | editQuote (db : DB) (qid bid : Nat) (content : String) (pn : Option Int) :
      Reachable db → Reachable (edit_quote db qid bid content pn).1
  | deleteQuote (db : DB) (qid : Nat) : Reachable db →
      Reachable (delete_quote db qid).1

/-- Number of author rows carrying a given name. -/
def countAuthorsNamed (db : DB) (n : String) : Nat :=
  (db.authors.filter fun a => a.name == n).length

/-! Helper lemmas about the in-place row updates the soft deletes compile to. -/

/-- Applying a row update twice is the same as once, when the update is
idempotent and does not change whether a row matches. -/
theorem map_if_update_idem {α : Type} (p : α → Bool) (u : α → α) (l : List α)
    (hu : ∀ a, u (u a) = u a) (hp : ∀ a, p (u a) = p a) :
    ((l.map fun a => if p a then u a else a).map fun a => if p a then u a else a)
      = l.map fun a => if p a then u a else a := by
  rw [List.map_map]
  refine List.map_congr_left fun a _ => ?_
  by_cases h : p a = true
  · simp [Function.comp, h, hp a, hu a]
  · simp [Function.comp, h]

/-- A row update touches nothing when no row matches. -/
theorem map_if_update_noop {α : Type} (p : α → Bool) (u : α → α) (l : List α)
    (h : ∀ a ∈ l, p a = false) :
    (l.map fun a => if p a then u a else a) = l := by
  have h2 : (l.map fun a => if p a then u a else a) = l.map id :=
    List.map_congr_left fun a ha => by simp [h a ha]
  simpa using h2

/-- The `IN (SELECT id FROM books WHERE author_id = ?)` test of
`delete_author`, re-expressed as one pass over the books table. -/
theorem bookIdsMatch (db : DB) (aid : Nat) (ob : Option Nat) :
    (match ob with
     | some bid => ((db.books.filter fun b => b.author_id == aid).map Book.id).contains bid
     | none => false)
      = db.books.any fun b => b.author_id == aid && ob == some b.id := by
  cases ob with
  | none =>
    rw [Bool.eq_iff_iff]
    simp
  | some bid =>
    rw [Bool.eq_iff_iff]
    simp only [List.contains_eq_any_beq, List.any_eq_true, List.mem_map, List.mem_filter,
      Bool.and_eq_true, beq_iff_eq, Option.some.injEq]
    constructor
    · rintro ⟨x, ⟨b, ⟨hb, hba⟩, rfl⟩, hid⟩
      exact ⟨b, hb, hba, hid⟩
    · rintro ⟨b, hb, hba, hid⟩
      exact ⟨b.id, ⟨b, ⟨hb, hba⟩, rfl⟩, hid⟩

/-! Concrete rows and databases used in the counterexamples and witnesses. -/

/-- A book row with the fields the handlers populate. -/
def sampleBook (i : Nat) (t : String) (aid : Nat) (tp : Option Int) (d : Bool) : Book :=
  { id := i, title := t, author_id := aid, format := "PDF", status := "Reading",
    published_year := none, genre := none, total_pages := tp, current_page := 0, deleted := d }

/-- A quote row with the fields the handlers populate. -/
def sampleQuote (i : Nat) (b : Option Nat) (c : String) (ts : Nat) (d : Bool) : Quote :=
  { id := i, book_id := b, content := c, page_number := none, created_at := ts, is_deleted := d }

/-- One soft-deleted book with a live quote, one live book with a soft-deleted
quote; both quote contents contain "hello". -/
def dbC1 : DB :=
  { authors := [⟨1, "A", false⟩],
    books := [sampleBook 1 "B1" 1 (some 100) true, sampleBook 2 "B2" 1 (some 100) false],
    quotes := [sampleQuote 1 (some 1) "hello world" 0 false,
               sampleQuote 2 (some 2) "hello there" 1 true] }

/-- A database whose only book has a NULL `total_pages`. -/
def dbC6 : DB :=
  { authors := [⟨1, "A", false⟩], books := [sampleBook 1 "B" 1 none false], quotes := [] }

/-- A database whose only book has `total_pages = 5`. -/
def dbW2 : DB :=
  { authors := [⟨1, "A", false⟩], books := [sampleBook 1 "B" 1 (some 5) false], quotes := [] }

/-- One author, one book of that author, one quote of that book, all live. -/
def dbW3 : DB :=
  { authors := [⟨1, "A", false⟩], books := [sampleBook 1 "B" 1 none false],
    quotes := [sampleQuote 1 (some 1) "c" 0 false] }

/-- Two live books of one author; a quote on the first. -/
def dbW5 : DB :=
  { authors := [⟨1, "A", false⟩],
    books := [sampleBook 1 "B1" 1 none false, sampleBook 2 "B2" 1 none false],
    quotes := [sampleQuote 1 (some 1) "c" 0 false] }

/-- Add author "X", soft-delete them, then add a book naming author "X". -/
def dbC4 : DB :=
  (add_book (delete_author (add_author emptyDB "X").1 1).1 "B" "X" "PDF" "Unread" none 0).1

/-- A single live quote whose `book_id` is NULL. -/
def dbC10 : DB :=
  { authors := [], books := [], quotes := [sampleQuote 1 none "lonely quote" 3 false] }

/-! Claim theorems. -/

/-- C1: the quotes search query's `WHERE content LIKE ? OR title LIKE ? AND
deleted = 0` groups, under SQL precedence, as `content LIKE ? OR (title LIKE ?
AND deleted = 0)` and drops the `is_deleted` filter, so at this concrete
database the search for "hello" returns a quote of a soft-deleted book
(quote 1 on book 1) and a soft-deleted quote (quote 2 on book 2), both of
which the claim says must never appear.  A correct query would return neither
row here. -/
theorem C1_search_leaks_deleted :
    (quotes dbC1 "hello").map (fun qb => (qb.1.id, qb.2.id, qb.2.deleted, qb.1.is_deleted))
      = [(1, 1, true, false), (2, 2, false, true)] := by decide

/-- C2: when the selected book exists with `total_pages = tp` and the supplied
page number `pn` exceeds it, both the quote-add and the quote-edit submission
return the 400 response whose message names `pn` and `tp`, and leave the
database (in particular the quote table) unchanged. -/
theorem C2_page_validation_rejects (db : DB) (bid qid : Nat) (content : String)
    (pn tp : Int) (now : Nat) (b : Book)
    (hfind : db.books.find? (fun x => x.id == bid) = some b)
    (htp : b.total_pages = some tp) (hgt : pn > tp) :
    add_quote db bid content (some pn) now = (db, Resp.error400 (pageErrMsg pn tp)) ∧
    edit_quote db qid bid content (some pn) = (db, Resp.error400 (pageErrMsg pn tp)) := by
  constructor
  · unfold add_quote
    rw [hfind]
    simp [htp, hgt]
  · unfold edit_quote
    rw [hfind]
    simp [htp, hgt]

/-- Witness for C2 at a concrete database: book 1 has 5 total pages and a
page number of 10 is rejected by both handlers with no write. -/
theorem C2_page_validation_witness :
    add_quote dbW2 1 "c" (some 10) 0 = (dbW2, Resp.error400 (pageErrMsg 10 5)) ∧
    edit_quote dbW2 1 1 "c" (some 10) = (dbW2, Resp.error400 (pageErrMsg 10 5)) :=
  C2_page_validation_rejects dbW2 1 1 "c" 10 5 0 (sampleBook 1 "B" 1 (some 5) false)
    (by decide) (by decide) (by decide)

/-- C6: the claim says every quote-add naming an existing book terminates with
a defined response even when the book's `total_pages` is NULL, but there the
code evaluates Python `page_number > None`, an uncaught `TypeError` (an
unhandled 500), not a defined response: the handler neither returns the 400
validation error nor inserts and redirects. -/
theorem C6_null_total_pages_fault :
    add_quote dbC6 1 "c" (some 5) 7
      = (dbC6, Resp.fault "TypeError: unsupported comparison of int and NoneType") := by
  decide

/-- C7: a request whose endpoint is not exempt (login/logout/static, as the
gate classifies endpoints) and whose session has no user id is answered with a
redirect to the login action carrying the requested path as the `next` target,
whatever the resource handler would do (the handler is not invoked); an exempt
request is never redirected by the gate and its handler runs for any session
state. -/
theorem C7_auth_gate (handler : Request → Resp) (req : Request) :
    (exemptRequest req.endpoint = false →
      require_login req none = some (Resp.redirect ("/login?next=" ++ req.path)) ∧
      handleRequest handler req none = Resp.redirect ("/login?next=" ++ req.path)) ∧
    (exemptRequest req.endpoint = true →
      ∀ sid, require_login req sid = none ∧ handleRequest handler req sid = handler req) := by
  constructor
  · intro h
    constructor <;> simp [handleRequest, require_login, loginRedirect, h]
  · intro h sid
    constructor <;> simp [handleRequest, require_login, h]

/-- Witness for C7: a logged-out request to `/books` is redirected with
`next=/books`; a logged-in request to the login endpoint reaches its handler. -/
theorem C7_auth_gate_witness :
    handleRequest (fun _ => Resp.page) ⟨some "books", "/books"⟩ none
      = Resp.redirect ("/login?next=" ++ "/books") ∧
    handleRequest (fun _ => Resp.page) ⟨some "login", "/login"⟩ (some 1) = Resp.page :=
  ⟨((C7_auth_gate (fun _ => Resp.page) ⟨some "books", "/books"⟩).1 (by decide)).2,
   ((C7_auth_gate (fun _ => Resp.page) ⟨some "login", "/login"⟩).2 (by decide) (some 1)).2⟩

/-- C3: the author-delete operation keeps every table's rows in place and, row
by row, flips `is_deleted` on exactly the author with the given id, `deleted`
on exactly the books whose `author_id` is that id, and `is_deleted` on exactly
the quotes whose `book_id` belongs to such a book; every other field of every
row, and every other row's flags, are unchanged. -/
theorem C3_delete_author_cascade (db : DB) (aid : Nat) :
    ((delete_author db aid).1.authors.length = db.authors.length ∧
     (delete_author db aid).1.books.length = db.books.length ∧
     (delete_author db aid).1.quotes.length = db.quotes.length) ∧
    (∀ i, ∀ (h : i < db.authors.length) (h2 : i < (delete_author db aid).1.authors.length),
      ((delete_author db aid).1.authors[i].id = db.authors[i].id ∧
       (delete_author db aid).1.authors[i].name = db.authors[i].name) ∧
      (delete_author db aid).1.authors[i].is_deleted
        = (db.authors[i].is_deleted || db.authors[i].id == aid)) ∧
    (∀ i, ∀ (h : i < db.books.length) (h2 : i < (delete_author db aid).1.books.length),
      ((delete_author db aid).1.books[i].id = db.books[i].id ∧
       (delete_author db aid).1.books[i].title = db.books[i].title ∧
       (delete_author db aid).1.books[i].author_id = db.books[i].author_id ∧
       (delete_author db aid).1.books[i].format = db.books[i].format ∧
       (delete_author db aid).1.books[i].status = db.books[i].status ∧
       (delete_author db aid).1.books[i].published_year = db.books[i].published_year ∧
       (delete_author db aid).1.books[i].genre = db.books[i].genre ∧
       (delete_author db aid).1.books[i].total_pages = db.books[i].total_pages ∧
       (delete_author db aid).1.books[i].current_page = db.books[i].current_page) ∧
      (delete_author db aid).1.books[i].deleted
        = (db.books[i].deleted || db.books[i].author_id == aid)) ∧
    (∀ i, ∀ (h : i < db.quotes.length) (h2 : i < (delete_author db aid).1.quotes.length),
      ((delete_author db aid).1.quotes[i].id = db.quotes[i].id ∧
       (delete_author db aid).1.quotes[i].book_id = db.quotes[i].book_id ∧
       (delete_author db aid).1.quotes[i].content = db.quotes[i].content ∧
       (delete_author db aid).1.quotes[i].page_number = db.quotes[i].page_number ∧
       (delete_author db aid).1.quotes[i].created_at = db.quotes[i].created_at) ∧
      (delete_author db aid).1.quotes[i].is_deleted
        = (db.quotes[i].is_deleted ||
            db.books.any fun b => b.author_id == aid && db.quotes[i].book_id == some b.id)) := by
  refine ⟨⟨?_, ?_, ?_⟩, ?_, ?_, ?_⟩
  · simp [delete_author]
  · simp [delete_author]
  · simp [delete_author]
  · intro i h h2
    simp only [delete_author, List.getElem_map]
    cases hb : db.authors[i].id == aid <;> simp [hb]
  · intro i h h2
    simp only [delete_author, List.getElem_map]
    cases hb : db.books[i].author_id == aid <;> simp [hb]
  · intro i h h2
    simp only [delete_author, List.getElem_map, bookIdsMatch]
    cases hb : db.books.any fun b => b.author_id == aid && db.quotes[i].book_id == some b.id <;>
      simp [hb]

/-- Witness for C3 at a concrete database: deleting author 1 flips the flag of
author row 0 and of quote row 0 (whose book belongs to author 1). -/
theorem C3_delete_author_witness :
    ((delete_author dbW3 1).1.authors.get ⟨0, by decide⟩).is_deleted
      = ((dbW3.authors.get ⟨0, by decide⟩).is_deleted
          || ((dbW3.authors.get ⟨0, by decide⟩).id == 1)) ∧
    ((delete_author dbW3 1).1.quotes.get ⟨0, by decide⟩).is_deleted
      = ((dbW3.quotes.get ⟨0, by decide⟩).is_deleted ||
          dbW3.books.any fun b =>
            b.author_id == 1 && (dbW3.quotes.get ⟨0, by decide⟩).book_id == some b.id) := by
  have h := C3_delete_author_cascade dbW3 1
  exact ⟨(h.2.1 0 (by decide) (by decide)).2, (h.2.2.2 0 (by decide) (by decide)).2⟩

/-- C4 counterexample: adding author "X", soft-deleting them, then adding a
book that names author "X" is a reachable state in which a non-deleted book
references a soft-deleted author — the claimed invariant fails, because the
book handlers resolve the author by name among all authors, soft-deleted ones
included. -/
theorem C4_counterexample : Reachable dbC4 ∧ bookAuthorInv dbC4 = false :=
  ⟨.addBook _ _ _ _ _ _ _ (.deleteAuthor _ _ (.addAuthor _ _ .init)), by decide⟩

/-- C4 (amended): the author-delete cascade preserves the invariant that every
non-deleted book references a non-deleted author, and after it no non-deleted
book references the deleted author; the invariant does not hold in every
reachable state, since book add/edit resolve the author by name with no
delete-flag filter. -/
theorem C4_cascade_preserves_inv (db : DB) (aid : Nat) :
    (bookAuthorInv db = true → bookAuthorInv (delete_author db aid).1 = true) ∧
    (∀ b ∈ (delete_author db aid).1.books, b.author_id = aid → b.deleted = true) := by
  constructor
  · intro hinv
    rw [bookAuthorInv, List.all_eq_true] at hinv ⊢
    intro b' hb'
    simp only [delete_author, List.mem_map] at hb'
    obtain ⟨b0, hb0, rfl⟩ := hb'
    cases hba : b0.author_id == aid
    · -- the book keeps its author, who is not the deleted one
      simp only [hba, if_neg Bool.false_ne_true, Bool.or_eq_true]
      have hb0inv := hinv b0 hb0
      rw [Bool.or_eq_true] at hb0inv
      rcases hb0inv with hdel | hany
      · exact Or.inl hdel
      · refine Or.inr ?_
        rw [List.any_eq_true] at hany ⊢
        obtain ⟨a, ha, hap⟩ := hany
        have hap' := hap
        rw [Bool.and_eq_true] at hap'
        obtain ⟨haid, halive⟩ := hap'
        have haneq : (a.id == aid) = false := by
          have h1 : a.id = b0.author_id := beq_iff_eq.mp haid
          have h2 : b0.author_id ≠ aid := by simpa using hba
          simp [h1, h2]
      -- the author row is untouched by the authors UPDATE
        refine ⟨a, ?_, ?_⟩
        · simp only [delete_author, List.mem_map]
          exact ⟨a, ha, by simp [haneq]⟩
        · exact hap
    · simp [hba]
  · intro b hb hba
    simp only [delete_author, List.mem_map] at hb
    obtain ⟨b0, _, rfl⟩ := hb
    cases h0 : b0.author_id == aid
    · rw [if_neg (by simp [h0])] at hba ⊢
      exact absurd hba (by simpa using h0)
    · simp [h0]

/-- Witness for C4's amended statement at a concrete database: the invariant
holds after deleting author 1 from `dbW3`, and the surviving copy of book row 0
(that author's book) is flagged deleted. -/
theorem C4_cascade_witness :
    bookAuthorInv (delete_author dbW3 1).1 = true ∧
    ((delete_author dbW3 1).1.books.get ⟨0, by decide⟩).deleted = true := by
  have h := C4_cascade_preserves_inv dbW3 1
  exact ⟨h.1 (by decide),
    h.2 ((delete_author dbW3 1).1.books.get ⟨0, by decide⟩) (by decide) (by decide)⟩

/-- Two database states are equal when their three tables are. -/
theorem dbExt (x y : DB) (h1 : x.authors = y.authors) (h2 : x.books = y.books)
    (h3 : x.quotes = y.quotes) : x = y := by
  cases x; cases y; simp_all

/-- C5: the book-delete operation flips `deleted` on exactly the rows with the
given book id and `is_deleted` on exactly the quotes with that `book_id`,
leaving every other field and row unchanged; afterwards no row of the books
list output (searching or not) carries that id, while the book's row itself
survives in storage flagged `deleted` with all other columns intact. -/
theorem C5_delete_book_cascade (db : DB) (bid : Nat) :
    ((delete_book db bid).1.authors = db.authors ∧
     (delete_book db bid).1.books.length = db.books.length ∧
     (delete_book db bid).1.quotes.length = db.quotes.length) ∧
    (∀ i, ∀ (h : i < db.books.length) (h2 : i < (delete_book db bid).1.books.length),
      ((delete_book db bid).1.books[i].id = db.books[i].id ∧
       (delete_book db bid).1.books[i].title = db.books[i].title ∧
       (delete_book db bid).1.books[i].author_id = db.books[i].author_id ∧
       (delete_book db bid).1.books[i].format = db.books[i].format ∧
       (delete_book db bid).1.books[i].status = db.books[i].status ∧
       (delete_book db bid).1.books[i].published_year = db.books[i].published_year ∧
       (delete_book db bid).1.books[i].genre = db.books[i].genre ∧
       (delete_book db bid).1.books[i].total_pages = db.books[i].total_pages ∧
       (delete_book db bid).1.books[i].current_page = db.books[i].current_page) ∧
      (delete_book db bid).1.books[i].deleted
        = (db.books[i].deleted || db.books[i].id == bid)) ∧
    (∀ i, ∀ (h : i < db.quotes.length) (h2 : i < (delete_book db bid).1.quotes.length),
      ((delete_book db bid).1.quotes[i].id = db.quotes[i].id ∧
       (delete_book db bid).1.quotes[i].book_id = db.quotes[i].book_id ∧
       (delete_book db bid).1.quotes[i].content = db.quotes[i].content ∧
       (delete_book db bid).1.quotes[i].page_number = db.quotes[i].page_number ∧
       (delete_book db bid).1.quotes[i].created_at = db.quotes[i].created_at) ∧
      (delete_book db bid).1.quotes[i].is_deleted
        = (db.quotes[i].is_deleted || db.quotes[i].book_id == some bid)) ∧
    (∀ search : String, ∀ ba ∈ books (delete_book db bid).1 search, ba.1.id ≠ bid) ∧
    (∀ b ∈ db.books, b.id = bid →
      ({ b with deleted := true } : Book) ∈ (delete_book db bid).1.books) := by
  refine ⟨⟨rfl, ?_, ?_⟩, ?_, ?_, ?_, ?_⟩
  · simp [delete_book]
  · simp [delete_book]
  · intro i h h2
    simp only [delete_book, List.getElem_map]
    cases hb : db.books[i].id == bid <;> simp [hb]
  · intro i h h2
    simp only [delete_book, List.getElem_map]
    cases hb : db.quotes[i].book_id == some bid <;> simp [hb]
  · intro search ba hba
    have hmem : ba ∈ innerJoinBooksAuthors (delete_book db bid).1 ∧ ba.1.deleted = false := by
      unfold books at hba
      by_cases hs : (search == "") = true
      · rw [if_pos hs] at hba
        have h0 := List.mem_filter.mp hba
        exact ⟨h0.1, by simpa using h0.2⟩
      · rw [if_neg hs] at hba
        have h0 := List.mem_filter.mp hba
        refine ⟨h0.1, ?_⟩
        have h2 := h0.2
        rw [Bool.and_eq_true] at h2
        simpa using h2.1
    obtain ⟨hj, hdel⟩ := hmem
    rw [innerJoinBooksAuthors, List.mem_flatMap] at hj
    obtain ⟨b0, hb0, hmp⟩ := hj
    rw [List.mem_map] at hmp
    obtain ⟨a, _, rfl⟩ := hmp
    simp only [delete_book, List.mem_map] at hb0
    obtain ⟨b1, _, rfl⟩ := hb0
    cases h1 : b1.id == bid
    · simp only [h1, Bool.false_eq_true, if_false] at hdel ⊢
      intro heq
      simp [heq] at h1
    · simp [h1] at hdel
  · intro b hb hid
    simp only [delete_book, List.mem_map]
    exact ⟨b, hb, by simp [hid]⟩

/-- Witness for C5 at a concrete database: deleting book 1 flips its flag and
its quote's flag, keeps the other book (which alone shows up in the list), and
the deleted book's row survives with `deleted = 1`. -/
theorem C5_delete_book_witness :
    ((delete_book dbW5 1).1.books.get ⟨0, by decide⟩).deleted
      = ((dbW5.books.get ⟨0, by decide⟩).deleted || ((dbW5.books.get ⟨0, by decide⟩).id == 1)) ∧
    ((delete_book dbW5 1).1.quotes.get ⟨0, by decide⟩).is_deleted
      = ((dbW5.quotes.get ⟨0, by decide⟩).is_deleted
          || ((dbW5.quotes.get ⟨0, by decide⟩).book_id == some 1)) ∧
    (sampleBook 2 "B2" 1 none false, (⟨1, "A", false⟩ : Author)).1.id ≠ 1 ∧
    ({ sampleBook 1 "B1" 1 none false with deleted := true } : Book)
      ∈ (delete_book dbW5 1).1.books := by
  have h := C5_delete_book_cascade dbW5 1
  exact ⟨(h.2.1 0 (by decide) (by decide)).2, (h.2.2.1 0 (by decide) (by decide)).2,
    h.2.2.2.1 "" (sampleBook 2 "B2" 1 none false, ⟨1, "A", false⟩) (by decide),
    h.2.2.2.2 (sampleBook 1 "B1" 1 none false) (by decide) (by decide)⟩

/-- C8: submitting author-add twice with the same (non-blank, at most singly
present) name leaves exactly one author row with that stripped name; the second
submission changes nothing and still redirects to the authors list as if it
had succeeded. -/
theorem C8_add_author_idem (db : DB) (name : String)
    (hne : pyStrip name ≠ "") (hcount : countAuthorsNamed db (pyStrip name) ≤ 1) :
    countAuthorsNamed (add_author (add_author db name).1 name).1 (pyStrip name) = 1 ∧
    (add_author (add_author db name).1 name).1 = (add_author db name).1 ∧
    (add_author (add_author db name).1 name).2 = Resp.redirect "authors" := by
  have hne' : (pyStrip name == "") = false := by simpa using hne
  by_cases hA : db.authors.any (fun a => a.name == pyStrip name) = true
  · have h1 : add_author db name = (db, Resp.redirect "authors") := by
      simp [add_author, hne', hA]
    have hge : 1 ≤ countAuthorsNamed db (pyStrip name) := by
      rw [List.any_eq_true] at hA
      obtain ⟨a, ha, hname⟩ := hA
      have hm : a ∈ db.authors.filter fun x => x.name == pyStrip name :=
        List.mem_filter.mpr ⟨ha, hname⟩
      have hp := List.length_pos.mpr (List.ne_nil_of_mem hm)
      simpa [countAuthorsNamed] using hp
    have h2 : add_author (add_author db name).1 name = (db, Resp.redirect "authors") := by
      rw [h1]; exact h1
    refine ⟨?_, ?_, ?_⟩
    · rw [h2]
      show countAuthorsNamed db (pyStrip name) = 1
      omega
    · rw [h2, h1]
    · rw [h2]
  · have hA' : db.authors.any (fun a => a.name == pyStrip name) = false := by
      simpa using hA
    have hnone : ∀ a ∈ db.authors, ¬(a.name == pyStrip name) = true := by
      rw [← List.any_eq_false]
      exact hA'
    have h1 : add_author db name =
        ({ db with authors := db.authors ++ [⟨nextAuthorId db, pyStrip name, false⟩] },
         Resp.redirect "authors") := by
      simp [add_author, hne', hA']
    have hA2 : (({ db with authors :=
          db.authors ++ [⟨nextAuthorId db, pyStrip name, false⟩] } : DB).authors.any
            fun a => a.name == pyStrip name) = true := by
      rw [List.any_eq_true]
      exact ⟨⟨nextAuthorId db, pyStrip name, false⟩, by simp, by simp⟩
    have h2 : add_author (add_author db name).1 name
        = ((add_author db name).1, Resp.redirect "authors") := by
      rw [h1]
      simp [add_author, hne', hA2]
    have e1 : db.authors.filter (fun a => a.name == pyStrip name) = [] :=
      List.filter_eq_nil_iff.mpr hnone
    have hc1 : countAuthorsNamed (add_author db name).1 (pyStrip name) = 1 := by
      rw [h1]
      show countAuthorsNamed
        { db with authors := db.authors ++ [⟨nextAuthorId db, pyStrip name, false⟩] }
        (pyStrip name) = 1
      simp [countAuthorsNamed, List.filter_append, e1]
    refine ⟨?_, ?_, ?_⟩
    · rw [h2]
      exact hc1
    · rw [h2]
    · rw [h2]

/-- Witness for C8: creating "James Clear" twice starting from the empty
database leaves exactly one such author, with the second call a redirecting
no-op. -/
theorem C8_add_author_witness :
    countAuthorsNamed (add_author (add_author emptyDB "James Clear").1 "James Clear").1
        (pyStrip "James Clear") = 1 ∧
    (add_author (add_author emptyDB "James Clear").1 "James Clear").1
      = (add_author emptyDB "James Clear").1 ∧
    (add_author (add_author emptyDB "James Clear").1 "James Clear").2
      = Resp.redirect "authors" :=
  C8_add_author_idem emptyDB "James Clear" (by decide) (by decide)

/-- C9: each soft delete (book, quote, author) is idempotent — the second
application reproduces the state after the first — and each is the identity on
a database with no matching rows. -/
theorem C9_soft_delete_idem (db : DB) (rid : Nat) :
    ((delete_book (delete_book db rid).1 rid).1 = (delete_book db rid).1 ∧
     (delete_quote (delete_quote db rid).1 rid).1 = (delete_quote db rid).1 ∧
     (delete_author (delete_author db rid).1 rid).1 = (delete_author db rid).1) ∧
    ((∀ b ∈ db.books, b.id ≠ rid) → (∀ q ∈ db.quotes, q.book_id ≠ some rid) →
      (delete_book db rid).1 = db) ∧
    ((∀ q ∈ db.quotes, q.id ≠ rid) → (delete_quote db rid).1 = db) ∧
    ((∀ a ∈ db.authors, a.id ≠ rid) → (∀ b ∈ db.books, b.author_id ≠ rid) →
      (delete_author db rid).1 = db) := by
  have hids : ∀ B : List Book,
      (((B.map fun b => if b.author_id == rid then { b with deleted := true } else b).filter
          fun b => b.author_id == rid).map Book.id)
        = (B.filter fun b => b.author_id == rid).map Book.id := by
    intro B
    have hg1 : ((fun b : Book => b.author_id == rid) ∘
          fun b => if b.author_id == rid then { b with deleted := true } else b)
        = fun b : Book => b.author_id == rid := by
      funext b; cases hb : b.author_id == rid <;> simp [Function.comp, hb]
    have hg2 : (Book.id ∘
          fun b => if b.author_id == rid then { b with deleted := true } else b) = Book.id := by
      funext b; cases hb : b.author_id == rid <;> simp [Function.comp, hb]
    rw [List.filter_map, List.map_map, hg1, hg2]
  refine ⟨⟨?_, ?_, ?_⟩, ?_, ?_, ?_⟩
  · refine dbExt _ _ rfl ?_ ?_
    · exact map_if_update_idem _ _ db.books (fun b => rfl) (fun b => rfl)
    · exact map_if_update_idem _ _ db.quotes (fun q => rfl) (fun q => rfl)
  · refine dbExt _ _ rfl rfl ?_
    exact map_if_update_idem _ _ db.quotes (fun q => rfl) (fun q => rfl)
  · refine dbExt _ _ ?_ ?_ ?_
    · exact map_if_update_idem _ _ db.authors (fun a => rfl) (fun a => rfl)
    · exact map_if_update_idem _ _ db.books (fun b => rfl) (fun b => rfl)
    · simp only [delete_author]
      simp only [hids]
      exact map_if_update_idem _ _ db.quotes (fun q => rfl) (fun q => rfl)
  · intro hb hq
    refine dbExt _ _ rfl ?_ ?_
    · exact map_if_update_noop _ _ db.books (fun b hbm => by simpa using hb b hbm)
    · exact map_if_update_noop _ _ db.quotes (fun q hqm => by simpa using hq q hqm)
  · intro hq
    refine dbExt _ _ rfl rfl ?_
    exact map_if_update_noop _ _ db.quotes (fun q hqm => by simpa using hq q hqm)
  · intro ha hb
    refine dbExt _ _ ?_ ?_ ?_
    · exact map_if_update_noop _ _ db.authors (fun a ham => by simpa using ha a ham)
    · exact map_if_update_noop _ _ db.books (fun b hbm => by simpa using hb b hbm)
    · have hfil : (db.books.filter fun b => b.author_id == rid) = [] :=
        List.filter_eq_nil_iff.mpr (fun b hbm => by simpa using hb b hbm)
      simp only [delete_author]
      rw [hfil]
      exact map_if_update_noop _ _ db.quotes (fun q hqm => by cases q.book_id <;> simp)

/-- Witness for C9 at a concrete database: deleting book 99 twice equals
deleting it once, and deleting book, quote or author 99 (no matching rows)
leaves the database untouched. -/
theorem C9_soft_delete_witness :
    (delete_book (delete_book dbW3 99).1 99).1 = (delete_book dbW3 99).1 ∧
    (delete_book dbW3 99).1 = dbW3 ∧
    (delete_quote dbW3 99).1 = dbW3 ∧
    (delete_author dbW3 99).1 = dbW3 := by
  have h := C9_soft_delete_idem dbW3 99
  exact ⟨h.1.1, h.2.1 (by decide) (by decide), h.2.2.1 (by decide),
    h.2.2.2 (by decide) (by decide)⟩

/-- C10: no row of the quotes list (searching or not) has a NULL `book_id` —
the inner join drops such quotes — while the dashboard's count includes a live
NULL-book quote and its left-joined most-recent-quote query can return it,
paired with a NULL title, as `dbC10` shows concretely. -/
theorem C10_null_book_quote (db : DB) (search : String) :
    (∀ qb ∈ quotes db search, qb.1.book_id ≠ none) ∧
    (quotes dbC10 "" = [] ∧ quotes dbC10 "lone" = [] ∧
     (dashboard dbC10).quote_count = 1 ∧
     (dashboard dbC10).recent_quote = some ("lonely quote", none)) := by
  constructor
  · intro qb hqb
    have hj : qb ∈ innerJoinQuotesBooks db := by
      unfold quotes at hqb
      by_cases hs : (search == "") = true
      · rw [if_pos hs] at hqb
        exact (List.mem_filter.mp hqb).1
      · rw [if_neg hs] at hqb
        exact (List.mem_filter.mp hqb).1
    rw [innerJoinQuotesBooks, List.mem_flatMap] at hj
    obtain ⟨q, _, hmp⟩ := hj
    rw [List.mem_map] at hmp
    obtain ⟨b, hbf, rfl⟩ := hmp
    have hbid : q.book_id = some b.id := by simpa using (List.mem_filter.mp hbf).2
    simp [hbid]
  · exact ⟨by decide, by decide, by decide, by decide⟩

/-- Witness for C10: the quote-book row of `dbW3`'s quotes list indeed has a
non-NULL `book_id`. -/
theorem C10_null_book_witness :
    (sampleQuote 1 (some 1) "c" 0 false, sampleBook 1 "B" 1 none false).1.book_id ≠ none :=
  (C10_null_book_quote dbW3 "").1
    (sampleQuote 1 (some 1) "c" 0 false, sampleBook 1 "B" 1 none false) (by decide)

end Library
